import Mathlib

/-!
Shallow embedding of `rasa/cli/utils.py`.

The filesystem (`os.path.exists`) is modelled as a Boolean predicate on
strings passed explicitly to every function that consults it; the wall
clock (`time.strftime`) is modelled as an explicit broken-down time value;
printing and `exit(1)` are modelled by an explicit outcome type that
records the returned value, any warning emitted, or the exit code and
error message.
-/

namespace RasaCliUtils

/-- Python `str` applied to an `Optional[Text]` value, as used by
`"{}".format(current)`: `None` prints as `"None"`, a string prints as
itself. -/
def optRepr : Option String → String
  | none => "None"
  | some s => s

/-- Python `s.endswith(suf)`: `suf` is a suffix of `s`, modelled on the
underlying character lists. -/
def strEndsWith (s suf : String) : Bool :=
  suf.data.isSuffixOf s.data

/-- Python `s.startswith(p)`: `p` is a prefix of `s`, modelled on the
underlying character lists. -/
def strStartsWith (s p : String) : Bool :=
  p.data.isPrefixOf s.data

/-- Outcome of a CLI utility call: either the function returns a value
(`Optional[Text]`), possibly after printing one warning, or the process
terminates via `exit` with a code and a printed error message. -/
inductive PathOutcome where
  | returns (value : Option String) (warning : Option String)
  | exits (code : Nat) (error : String)
deriving DecidableEq, Repr

/-- The condition `current is None or current is not None and not
os.path.exists(current)` from `get_validated_path` (also used for the
`default`-missing hypothesis). -/
def pathMissing (fs : String → Bool) (current : Option String) : Bool :=
  match current with
  | none => true
  | some c => !(fs c)

/-- The warning text printed by `get_validated_path` when it falls back to
the default: `"'{}' not found. Using default location '{}' instead."`. -/
def warnMessage (current : Option String) (d : String) : String :=
  "'" ++ optRepr current ++ "' not found. Using default location '" ++ d ++ "' instead."

/-- The `default_clause` computed in `cancel_cause_not_found`; Python's
`if default:` is falsy for both `None` and the empty string. -/
def defaultClause (default : Option String) : String :=
  match default with
  | none => ""
  | some d => if d = "" then "" else "use the default location ('" ++ d ++ "') or "

/-- The error text printed by `cancel_cause_not_found`. -/
def cancelMessage (current : Option String) (parameter : String)
    (default : Option String) : String :=
  "The path '" ++ optRepr current ++ "' does not exist. Please make sure to "
    ++ defaultClause default ++ "specify it with '--" ++ parameter ++ "'."

/-- `cancel_cause_not_found(current, parameter, default)`: prints the error
message and calls `exit(1)`. -/
def cancel_cause_not_found (current : Option String) (parameter : String)
    (default : Option String) : PathOutcome :=
  PathOutcome.exits 1 (cancelMessage current parameter default)

/-- `get_validated_path(current, parameter, default=None, none_is_valid=False)`
from `rasa/cli/utils.py`, with the filesystem `fs` explicit. -/
def get_validated_path (fs : String → Bool) (current : Option String)
    (parameter : String) (default : Option String := none)
    (none_is_valid : Bool := false) : PathOutcome :=
  if pathMissing fs current then
    let fallback :=
      if none_is_valid then PathOutcome.returns none none
      else cancel_cause_not_found current parameter default
    match default with
    | some d =>
      if fs d then PathOutcome.returns (some d) (some (warnMessage current d))
      else fallback
    | none => fallback
  else
    PathOutcome.returns current none

/-- A YAML scalar/collection value as loaded by `rasa.utils.io.read_yaml_file`;
only the distinction between `None` (YAML null) and everything else matters
to `is_valid_config`. -/
inductive YamlValue where
  | null
  | str (s : String)
  | nat (n : Nat)
  | boolean (b : Bool)
  | strList (xs : List String)
deriving DecidableEq, Repr

/-- `is_valid_config(path, mandatory_keys)`. The structured-file reader
`rasa.utils.io.read_yaml_file` is an external collaborator (not part of
this file's source); the mapping it yields on success is taken directly as
the parameter `config_data`. The loop mirrors the Python `for k in
mandatory_keys: if k not in config_data or config_data[k] is None: return
False` with its early return. -/
def is_valid_config (config_data : List (String × YamlValue))
    (mandatory_keys : List String) : Bool :=
  match mandatory_keys with
  | [] => true
  | k :: rest =>
    match config_data.lookup k with
    | none => false
    | some YamlValue.null => false
    | some _ => is_valid_config config_data rest

/-- `parse_last_positional_argument_as_model_path()`: `sys.argv` is modelled
as an explicit list, mutated-in-place semantics as input/output. Negative
indices `sys.argv[-2]`, `sys.argv[-1]` become `length - 2`, `length - 1`. -/
def parse_last_positional_argument_as_model_path (fs : String → Bool)
    (argv : List String) : List String :=
  if 2 ≤ argv.length
      ∧ argv.getD 1 "" ∈ ["run", "test", "shell", "interactive"]
      ∧ ¬(strStartsWith (argv.getD (argv.length - 2) "") "-" = true)
      ∧ fs (argv.getD (argv.length - 1) "") = true then
    let argv2 := argv ++ [argv.getD (argv.length - 1) ""]
    argv2.set (argv2.length - 2) "--model"
  else
    argv

/-- `DEFAULT_MODELS_PATH` from `rasa.constants` (external to this file's
source; the spec calls it the default models directory). Only used as the
default argument of `create_output_path`; no claim depends on its value. -/
def DEFAULT_MODELS_PATH : String := "models"

/-- A broken-down local time, the input of `time.strftime`. -/
structure Tm where
  year : Nat
  month : Nat
  day : Nat
  hour : Nat
  minute : Nat
  second : Nat
deriving DecidableEq, Repr

/-- Zero-padding to two digits, as `%m`, `%d`, `%H`, `%M`, `%S` format. -/
def pad2 (n : Nat) : String :=
  if n < 10 then "0" ++ toString n else toString n

/-- Zero-padding to four digits, as `%Y` formats a year. -/
def pad4 (n : Nat) : String :=
  if n < 10 then "000" ++ toString n
  else if n < 100 then "00" ++ toString n
  else if n < 1000 then "0" ++ toString n
  else toString n

/-- `time.strftime("%Y%m%d-%H%M%S")` applied to the broken-down time `t`. -/
def strftimeYmdHMS (t : Tm) : String :=
  pad4 t.year ++ pad2 t.month ++ pad2 t.day ++ "-"
    ++ pad2 t.hour ++ pad2 t.minute ++ pad2 t.second

/-- POSIX `os.path.join(a, b)`: if `b` is absolute it replaces `a`;
otherwise the separator `"/"` is inserted unless `a` is empty or already
ends with it. -/
def os_path_join (a b : String) : String :=
  if strStartsWith b "/" then b
  else if a = "" ∨ strEndsWith a "/" then a ++ b
  else a ++ "/" ++ b

/-- `create_output_path(output_path=DEFAULT_MODELS_PATH, prefix="")`, with
the wall clock `t` explicit. Note the Python code tests
`output_path.endswith("tar.gz")` — without a leading dot. -/
def create_output_path (t : Tm) (output_path : String := DEFAULT_MODELS_PATH)
    (pre : String := "") : String :=
  if strEndsWith output_path "tar.gz" then output_path
  else os_path_join output_path (pre ++ strftimeYmdHMS t ++ ".tar.gz")

/-- `minimal_kwargs(kwargs, func)`. The signature-introspection facility
`rasa.utils.common.arguments_of` is an external collaborator; the set of
parameter names it yields is taken directly as `possible_arguments`. The
Python dict comprehension preserving insertion order becomes a filter. -/
def minimal_kwargs {V : Type} (kwargs : List (String × V))
    (possible_arguments : List String) : List (String × V) :=
  kwargs.filter (fun kv => possible_arguments.contains kv.1)

end RasaCliUtils

namespace RasaCliUtils

/-- C1: if `current` is `None` or does not exist and `default` is `None`
or does not exist, then with `none_is_valid = true` the call returns the
"no path" sentinel `None` with no warning and no exit, and with
`none_is_valid = false` it terminates the process with exit status 1. -/
theorem get_validated_path_missing_no_default (fs : String → Bool)
    (current default : Option String) (parameter : String)
    (hcur : pathMissing fs current = true)
    (hdef : pathMissing fs default = true) :
    get_validated_path fs current parameter default true
        = PathOutcome.returns none none
    ∧ get_validated_path fs current parameter default false
        = PathOutcome.exits 1 (cancelMessage current parameter default) := by
  cases default with
  | none =>
    simp [get_validated_path, hcur, cancel_cause_not_found]
  | some d =>
    have hd : fs d = false := by
      simpa [pathMissing] using hdef
    simp [get_validated_path, hcur, hd, cancel_cause_not_found]

/-- Witness for C1: concrete filesystem on which nothing exists,
`current = "nope"`, `default = "dflt"`. -/
theorem get_validated_path_missing_no_default_witness :
    get_validated_path (fun _ => false) (some "nope") "model" (some "dflt") true
        = PathOutcome.returns none none
    ∧ get_validated_path (fun _ => false) (some "nope") "model" (some "dflt") false
        = PathOutcome.exits 1 (cancelMessage (some "nope") "model" (some "dflt")) :=
  get_validated_path_missing_no_default (fun _ => false) (some "nope") (some "dflt")
    "model" (by decide) (by decide)

/-- C2: for every path `p` existing on the filesystem,
`get_validated_path(p, name)` returns `p` unchanged — no warning, no
error, no exit — for every `default` and every `none_is_valid`. -/
theorem get_validated_path_existing (fs : String → Bool) (p parameter : String)
    (default : Option String) (none_is_valid : Bool) (hp : fs p = true) :
    get_validated_path fs (some p) parameter default none_is_valid
      = PathOutcome.returns (some p) none := by
  simp [get_validated_path, pathMissing, hp]

/-- Witness for C2: filesystem on which exactly `"a.yml"` exists. -/
theorem get_validated_path_existing_witness :
    get_validated_path (fun s => s == "a.yml") "a.yml" "config" (some "d") false
      = PathOutcome.returns (some "a.yml") none :=
  get_validated_path_existing (fun s => s == "a.yml") "a.yml" "config"
    (some "d") false (by decide)

/-- C3: if `current` is `None` or does not exist but `default` exists, the
call returns `default` together with the warning naming both paths, for
both values of `none_is_valid`; `current = None` behaves exactly like a
non-existent path. -/
theorem get_validated_path_default_fallback (fs : String → Bool)
    (current : Option String) (parameter d : String) (none_is_valid : Bool)
    (hcur : pathMissing fs current = true) (hd : fs d = true) :
    get_validated_path fs current parameter (some d) none_is_valid
      = PathOutcome.returns (some d) (some (warnMessage current d)) := by
  simp [get_validated_path, hcur, hd]

/-- Witness for C3: `current = None`, `default = "models"` existing. -/
theorem get_validated_path_default_fallback_witness :
    get_validated_path (fun s => s == "models") none "model" (some "models") false
      = PathOutcome.returns (some "models")
          (some "'None' not found. Using default location 'models' instead.") :=
  get_validated_path_default_fallback (fun s => s == "models") none "model"
    "models" false (by decide) (by decide)

end RasaCliUtils

namespace RasaCliUtils

/-- Unfolding of one loop iteration of `is_valid_config` as a Boolean
conjunction: the key check and the remaining iterations. -/
theorem is_valid_config_cons (m : List (String × YamlValue)) (k : String)
    (rest : List String) :
    is_valid_config m (k :: rest)
      = ((!(m.lookup k == none) && !(m.lookup k == some YamlValue.null))
          && is_valid_config m rest) := by
  cases hl : m.lookup k with
  | none => simp [is_valid_config, hl]
  | some v => cases v <;> simp [is_valid_config, hl]

/-- An `Option YamlValue` is neither `none` nor `some null` exactly when it
is `some` of a non-null value. -/
theorem lookup_ok_iff (o : Option YamlValue) :
    (¬o = none ∧ ¬o = some YamlValue.null)
      ↔ ∃ v, o = some v ∧ v ≠ YamlValue.null := by
  cases o with
  | none => simp
  | some v => simp

/-- C4: `is_valid_config` (on the mapping yielded by a successful load)
returns true iff every mandatory key is present with a non-null value, and
it returns false whenever some key of the list fails, independently of the
keys listed after it (short-circuit). -/
theorem is_valid_config_spec (m : List (String × YamlValue)) (ks : List String) :
    (is_valid_config m ks = true
      ↔ ∀ k ∈ ks, ∃ v, m.lookup k = some v ∧ v ≠ YamlValue.null)
    ∧ ∀ p k s, (m.lookup k = none ∨ m.lookup k = some YamlValue.null) →
        is_valid_config m (p ++ k :: s) = false := by
  constructor
  · induction ks with
    | nil => simp [is_valid_config]
    | cons k rest ih =>
      rw [is_valid_config_cons]
      simp only [Bool.and_eq_true, Bool.not_eq_true', beq_eq_false_iff_ne, ne_eq,
        List.forall_mem_cons, ih]
      exact and_congr_left (fun _ => lookup_ok_iff (m.lookup k))
  · intro p k s hk
    induction p with
    | nil =>
      rcases hk with h | h
      · simp [is_valid_config, h]
      · simp [is_valid_config, h]
    | cons a p ih =>
      rw [List.cons_append, is_valid_config_cons, ih]
      simp

/-- Witness for C4: on `{"pipeline": null}`, the list
`["pipeline", "x"]` fails at its first key, whatever follows. -/
theorem is_valid_config_spec_witness :
    is_valid_config [("pipeline", YamlValue.null)] ([] ++ "pipeline" :: ["x"])
      = false :=
  (is_valid_config_spec [("pipeline", YamlValue.null)]
      ([] ++ "pipeline" :: ["x"])).2 [] "pipeline" ["x"] (Or.inr (by decide))

/-- C5: when all four trigger conditions hold, the rewriter appends a copy
of the last argument and overwrites the slot that is then second-to-last
with `"--model"`; net effect, `argv` becomes
`argv.dropLast ++ ["--model", last]`. -/
theorem parse_last_rewrites (fs : String → Bool) (argv : List String)
    (h2 : 2 ≤ argv.length)
    (hcmd : argv.getD 1 "" ∈ ["run", "test", "shell", "interactive"])
    (hdash : strStartsWith (argv.getD (argv.length - 2) "") "-" = false)
    (hex : fs (argv.getD (argv.length - 1) "") = true) :
    parse_last_positional_argument_as_model_path fs argv
      = argv.dropLast ++ ["--model", argv.getD (argv.length - 1) ""] := by
  simp only [parse_last_positional_argument_as_model_path]
  rw [if_pos ⟨h2, hcmd, by rw [hdash]; simp, hex⟩]
  have hl1 : (argv ++ [argv.getD (argv.length - 1) ""]).length = argv.length + 1 := by
    simp
  rw [hl1]
  have he : argv.length + 1 - 2 = argv.length - 1 := by omega
  rw [he]
  rw [List.set_append_left _ _ (by omega)]
  rw [List.set_eq_take_append_cons_drop, if_pos (by omega)]
  have hdrop : argv.drop (argv.length - 1 + 1) = [] :=
    List.drop_eq_nil_of_le (by omega)
  rw [hdrop, List.dropLast_eq_take]
  simp

/-- Witness for C5: `["prog", "run", "mydir/model.tar.gz"]` with that path
existing becomes `["prog", "run", "--model", "mydir/model.tar.gz"]`. -/
theorem parse_last_rewrites_witness :
    parse_last_positional_argument_as_model_path
        (fun s => s == "mydir/model.tar.gz")
        ["prog", "run", "mydir/model.tar.gz"]
      = ["prog", "run", "--model", "mydir/model.tar.gz"] := by
  have h := parse_last_rewrites (fun s => s == "mydir/model.tar.gz")
    ["prog", "run", "mydir/model.tar.gz"] (by decide) (by decide) (by decide)
    (by decide)
  simpa using h

/-- C9: if any of the four trigger conditions fails — fewer than two
arguments, command at index 1 outside the trigger set, second-to-last
argument starting with `"-"`, or last argument not an existing path — the
argument list is left entirely unchanged. -/
theorem parse_last_noop (fs : String → Bool) (argv : List String)
    (h : argv.length < 2
      ∨ argv.getD 1 "" ∉ ["run", "test", "shell", "interactive"]
      ∨ strStartsWith (argv.getD (argv.length - 2) "") "-" = true
      ∨ fs (argv.getD (argv.length - 1) "") = false) :
    parse_last_positional_argument_as_model_path fs argv = argv := by
  simp only [parse_last_positional_argument_as_model_path]
  rw [if_neg]
  rintro ⟨h2, hcmd, hdash, hex⟩
  rcases h with h | h | h | h
  · omega
  · exact h hcmd
  · exact hdash h
  · rw [h] at hex
    cases hex

/-- Witness for C9: `["prog", "train", "x"]` is unchanged even on a
filesystem where every path exists, because `"train"` is not in the
trigger set. -/
theorem parse_last_noop_witness :
    parse_last_positional_argument_as_model_path (fun _ => true)
        ["prog", "train", "x"]
      = ["prog", "train", "x"] :=
  parse_last_noop (fun _ => true) ["prog", "train", "x"]
    (Or.inr (Or.inl (by decide)))

end RasaCliUtils

namespace RasaCliUtils

/-- A suffix of `b` is a suffix of `a ++ b`. -/
theorem strEndsWith_append (a b s : String) (h : strEndsWith b s = true) :
    strEndsWith (a ++ b) s = true := by
  unfold strEndsWith at *
  rw [String.data_append]
  rw [List.isSuffixOf_iff_suffix] at *
  exact h.trans (List.suffix_append _ _)

/-- `os.path.join(a, b)` keeps any suffix of `b` as a suffix of the
result, in each of its three branches. -/
theorem strEndsWith_os_path_join (a b s : String) (h : strEndsWith b s = true) :
    strEndsWith (os_path_join a b) s = true := by
  unfold os_path_join
  split
  · exact h
  · split
    · exact strEndsWith_append _ _ _ h
    · exact strEndsWith_append _ _ _ h

/-- Every value `create_output_path` can return ends with `"tar.gz"`:
either the input already did, or the composed filename ends with
`".tar.gz"`. -/
theorem create_output_path_endsWith (t : Tm) (a pre : String) :
    strEndsWith (create_output_path t a pre) "tar.gz" = true := by
  unfold create_output_path
  split
  · assumption
  · exact strEndsWith_os_path_join _ _ _
      (strEndsWith_append (pre ++ strftimeYmdHMS t) ".tar.gz" "tar.gz" (by decide))

/-- C6 counterexample: the claim tests for the extension `".tar.gz"`, but
the code tests `endswith("tar.gz")` without the dot: the path `"tar.gz"`
does not end in `".tar.gz"`, yet it is returned unchanged (a passthrough,
not a newly composed filename). -/
theorem create_output_path_dotless_passthrough :
    strEndsWith "tar.gz" ".tar.gz" = false
    ∧ create_output_path ⟨2019, 12, 1, 10, 30, 2⟩ "tar.gz" "" = "tar.gz" := by
  constructor
  · decide
  · decide

/-- C6 amended: `create_output_path(output_path, prefix)` returns
`output_path` unchanged if and only if `output_path` ends in `"tar.gz"`
(no leading dot required); any other path yields a newly composed
filename. -/
theorem create_output_path_passthrough_iff (t : Tm) (output_path pre : String) :
    create_output_path t output_path pre = output_path
      ↔ strEndsWith output_path "tar.gz" = true := by
  cases h : strEndsWith output_path "tar.gz" with
  | true => simp [create_output_path, h]
  | false =>
    simp only [create_output_path, h]
    simp only [Bool.false_eq_true, if_false]
    constructor
    · intro heq
      have hj := strEndsWith_os_path_join output_path
        (pre ++ strftimeYmdHMS t ++ ".tar.gz") "tar.gz"
        (strEndsWith_append (pre ++ strftimeYmdHMS t) ".tar.gz" "tar.gz" (by decide))
      rw [heq] at hj
      rw [hj] at h
      cases h
    · exact fun hfalse => hfalse.elim

/-- Witness for C6 (amended): `"out/model.tar.gz"` is passed through;
its image under `create_output_path` is itself. -/
theorem create_output_path_passthrough_iff_witness :
    create_output_path ⟨2019, 12, 1, 10, 30, 2⟩ "out/model.tar.gz" ""
      = "out/model.tar.gz" :=
  (create_output_path_passthrough_iff ⟨2019, 12, 1, 10, 30, 2⟩
      "out/model.tar.gz" "").mpr (by decide)

/-- C7: for a non-archive `output_path` and explicit clock `t`, the result
is `os.path.join(output_path, prefix + strftime("%Y%m%d-%H%M%S") +
".tar.gz")`; when `output_path` is non-empty, has no trailing slash, and
the composed filename is not absolute, that join is exactly
`output_path ++ "/" ++ filename`. -/
theorem create_output_path_compose (t : Tm) (output_path pre : String)
    (harch : strEndsWith output_path "tar.gz" = false) :
    create_output_path t output_path pre
      = os_path_join output_path (pre ++ strftimeYmdHMS t ++ ".tar.gz")
    ∧ (¬output_path = "" → strEndsWith output_path "/" = false →
        strStartsWith (pre ++ strftimeYmdHMS t ++ ".tar.gz") "/" = false →
        create_output_path t output_path pre
          = output_path ++ "/" ++ (pre ++ strftimeYmdHMS t ++ ".tar.gz")) := by
  constructor
  · simp [create_output_path, harch]
  · intro h1 h2 h3
    simp [create_output_path, harch, os_path_join, h1, h2, h3]

/-- Witness for C7: with the clock at 2019-12-01 10:30:02,
`create_output_path("models")` is `"models/20191201-103002.tar.gz"`. -/
theorem create_output_path_compose_witness :
    create_output_path ⟨2019, 12, 1, 10, 30, 2⟩ "models" ""
      = "models/20191201-103002.tar.gz" := by
  have h := (create_output_path_compose ⟨2019, 12, 1, 10, 30, 2⟩ "models" ""
    (by decide)).2 (by decide) (by decide) (by decide)
  rw [h]
  decide

/-- C10: `create_output_path` is idempotent for every base path, every
pair of prefixes and every pair of clock readings, because each of its
results ends with `"tar.gz"` and is therefore passed through unchanged by
a second application. -/
theorem create_output_path_idempotent (t t' : Tm) (a pre pre' : String) :
    create_output_path t' (create_output_path t a pre) pre'
      = create_output_path t a pre := by
  have h := create_output_path_endsWith t a pre
  generalize hx : create_output_path t a pre = x at h ⊢
  simp [create_output_path, h]

/-- C8: `minimal_kwargs` keeps exactly the entries whose key is among the
callable's accepted parameter names (yielded by the external signature
introspection), preserving order and values: membership is characterized
by the intersection condition, and the result is a sublist of the input. -/
theorem minimal_kwargs_spec {V : Type} (kwargs : List (String × V))
    (possible_arguments : List String) :
    (∀ k v, (k, v) ∈ minimal_kwargs kwargs possible_arguments
        ↔ (k, v) ∈ kwargs ∧ k ∈ possible_arguments)
    ∧ (minimal_kwargs kwargs possible_arguments).Sublist kwargs := by
  constructor
  · intro k v
    simp [minimal_kwargs, List.mem_filter, List.elem_iff]
  · exact List.filter_sublist _

/-- Witness for C8: `minimal_kwargs({"a": 1, "b": 2}, f)` where `f`
accepts only `a` keeps exactly `("a", 1)`. -/
theorem minimal_kwargs_spec_witness :
    ("a", 1) ∈ minimal_kwargs [("a", 1), ("b", 2)] ["a"]
    ∧ minimal_kwargs [("a", 1), ("b", 2)] ["a"] = [("a", 1)] := by
  constructor
  · exact ((minimal_kwargs_spec [("a", 1), ("b", 2)] ["a"]).1 "a" 1).mpr
      ⟨by decide, by decide⟩
  · decide

end RasaCliUtils
